import Mathlib

/-!
Verification of the ShakeGuard earthquake detection and early-warning
subsystem.  The definitions below are a shallow embedding of the
TypeScript sources: the Geo Warning Engine (warning-calculation module,
`src/lib/supabase.ts`), the Event Detector and Intensity Calculator
(`src/hooks/useLocation.ts`, earthquake-detection hook), and the Defense
Mode Controller (`src/hooks/useEmergencyDefense.ts`).  JavaScript float
arithmetic is embedded as exact arithmetic: over `ℝ` where the source
uses `Math.sqrt` / trigonometry, and over `ℚ` for the purely
rational-arithmetic state machines, so that the statements are decidable
on concrete inputs.
-/

/- The batteries library ships the rational-number operations marked
irreducible, which blocks elaboration-time evaluation of the decidable
statements below on concrete inputs; restore default reducibility (the
kernel is unaffected either way). -/
set_option allowUnsafeReducibility true
attribute [semireducible] Rat.mul Rat.add Rat.sub Rat.inv Rat.ofScientific

namespace ShakeGuard

/-! ## Geo Warning Engine (warning-calculation module of src/lib/supabase.ts) -/

/-- `toRadians(degrees) { return degrees * (Math.PI / 180); }`. -/
noncomputable def toRadians (degrees : ℝ) : ℝ :=
  degrees * (Real.pi / 180)

/-- JavaScript's `Math.atan2(y, x)`, by case on the signs of the
arguments (the NaN/±0 distinctions of IEEE floats do not arise for the
real-number embedding). -/
noncomputable def atan2 (y x : ℝ) : ℝ :=
  if 0 < x then Real.arctan (y / x)
  else if x < 0 then
    if 0 ≤ y then Real.arctan (y / x) + Real.pi else Real.arctan (y / x) - Real.pi
  else
    if 0 < y then Real.pi / 2 else if y < 0 then -(Real.pi / 2) else 0

/-- `calculateHaversineDistance(lat1, lon1, lat2, lon2)`: great-circle
distance in kilometres, Earth radius `R = 6371`. -/
noncomputable def calculateHaversineDistance (lat1 lon1 lat2 lon2 : ℝ) : ℝ :=
  let R : ℝ := 6371
  let dLat := toRadians (lat2 - lat1)
  let dLon := toRadians (lon2 - lon1)
  let a :=
    Real.sin (dLat / 2) * Real.sin (dLat / 2) +
    Real.cos (toRadians lat1) * Real.cos (toRadians lat2) *
    Real.sin (dLon / 2) * Real.sin (dLon / 2)
  let c := 2 * atan2 (Real.sqrt a) (Real.sqrt (1 - a))
  let distance := R * c
  distance

/-- The `WAVE_SPEEDS` constant object (km/s). -/
structure WaveSpeedTable where
  P_WAVE : ℝ
  S_WAVE : ℝ
  SURFACE : ℝ

noncomputable def WAVE_SPEEDS : WaveSpeedTable :=
  { P_WAVE := 6.0, S_WAVE := 3.5, SURFACE := 3.0 }

/-- `const DEFAULT_WAVE_SPEED = WAVE_SPEEDS.S_WAVE; // 3.5 km/s`. -/
noncomputable def DEFAULT_WAVE_SPEED : ℝ := WAVE_SPEEDS.S_WAVE

/-- `calculateArrivalTime(distance_km, wave_speed = DEFAULT_WAVE_SPEED)`:
`distance_km / wave_speed`. -/
noncomputable def calculateArrivalTime (distance_km : ℝ)
    (wave_speed : ℝ := DEFAULT_WAVE_SPEED) : ℝ :=
  distance_km / wave_speed

/-- The inline urgency computation of `calculateWarningsForUsers`:
`const isUrgent = arrivalTime < 10; // Less than 10 seconds is urgent`. -/
noncomputable def isUrgentFlag (arrivalTime : ℝ) : Bool :=
  decide (arrivalTime < 10)

/-- A row of the recent-user-locations directory (the fields of
`UserLocation` that `calculateWarningsForUsers` reads). -/
structure GeoUserLocation where
  user_id : String
  latitude : ℝ
  longitude : ℝ

/-- The `user_location` field of a warning. -/
structure LatLng where
  latitude : ℝ
  longitude : ℝ

/-- The `WarningCalculation` record. -/
structure WarningCalculation where
  user_id : String
  distance_km : ℝ
  arrival_time_seconds : ℝ
  is_urgent : Bool
  user_location : LatLng

/-- Body of the `userLocations.forEach` loop of
`calculateWarningsForUsers`: either skips the user (`distance < 1`) or
pushes one `WarningCalculation`. -/
noncomputable def warningForUser (epicenterLat epicenterLon : ℝ)
    (userLocation : GeoUserLocation) : Option WarningCalculation :=
  let distance := calculateHaversineDistance epicenterLat epicenterLon
    userLocation.latitude userLocation.longitude
  if distance < 1 then
    none
  else
    let arrivalTime := calculateArrivalTime distance
    let isUrgent := isUrgentFlag arrivalTime
    some { user_id := userLocation.user_id
           distance_km := distance
           arrival_time_seconds := arrivalTime
           is_urgent := isUrgent
           user_location := { latitude := userLocation.latitude
                              longitude := userLocation.longitude } }

/-- `calculateWarningsForUsers(epicenterLat, epicenterLon, magnitude)`,
with the directory fetch (`getRecentUserLocations`) supplied as the
`userLocations` argument.  The `forEach`-with-`push` loop is the
`filterMap` of `warningForUser`; the final
`warnings.sort((a, b) => a.arrival_time_seconds - b.arrival_time_seconds)`
is a sort by ascending arrival time.  The `magnitude` argument is
accepted but never read, as in the source. -/
noncomputable def calculateWarningsForUsers (epicenterLat epicenterLon : ℝ)
    (magnitude : ℝ) (userLocations : List GeoUserLocation) :
    List WarningCalculation :=
  let warnings := userLocations.filterMap (warningForUser epicenterLat epicenterLon)
  warnings.mergeSort (fun a b => decide (a.arrival_time_seconds ≤ b.arrival_time_seconds))

/-! ### Helper lemmas for the Geo Warning Engine -/

lemma calculateHaversineDistance_same_point :
    calculateHaversineDistance 0 0 0 0 = 0 := by
  simp [calculateHaversineDistance, toRadians, atan2, Real.sqrt_zero, Real.sqrt_one]

lemma mem_calculateWarningsForUsers {eLat eLon mag : ℝ}
    {users : List GeoUserLocation} {w : WarningCalculation}
    (hw : w ∈ calculateWarningsForUsers eLat eLon mag users) :
    ∃ u ∈ users, warningForUser eLat eLon u = some w := by
  simpa [calculateWarningsForUsers, List.mem_filterMap] using hw

lemma warningForUser_distance {eLat eLon : ℝ} {u : GeoUserLocation}
    {w : WarningCalculation} (h : warningForUser eLat eLon u = some w) :
    1 ≤ w.distance_km ∧
      w.arrival_time_seconds =
        calculateArrivalTime (calculateHaversineDistance eLat eLon u.latitude u.longitude) ∧
      w.is_urgent = isUrgentFlag w.arrival_time_seconds := by
  unfold warningForUser at h
  by_cases hd : calculateHaversineDistance eLat eLon u.latitude u.longitude < 1
  · simp [hd] at h
  · simp only [hd, if_false, Option.some.injEq] at h
    cases h
    exact ⟨le_of_not_lt hd, rfl, rfl⟩

/-! ### Claim theorems for the Geo Warning Engine -/

/-- C7: the haversine distance with Earth radius 6371 km satisfies
`calculateHaversineDistance 0 0 0 0 = 0` and is symmetric in its two
coordinate pairs. -/
theorem haversine_zero_and_symm :
    calculateHaversineDistance 0 0 0 0 = 0 ∧
    ∀ lat1 lon1 lat2 lon2 : ℝ,
      calculateHaversineDistance lat1 lon1 lat2 lon2 =
        calculateHaversineDistance lat2 lon2 lat1 lon1 := by
  refine ⟨calculateHaversineDistance_same_point, ?_⟩
  intro lat1 lon1 lat2 lon2
  have hsin : ∀ x y : ℝ,
      Real.sin (toRadians (x - y) / 2) = -Real.sin (toRadians (y - x) / 2) := by
    intro x y
    have h : toRadians (x - y) / 2 = -(toRadians (y - x) / 2) := by
      unfold toRadians; ring
    rw [h, Real.sin_neg]
  simp only [calculateHaversineDistance]
  rw [hsin lat2 lat1, hsin lon2 lon1]
  ring_nf

/-- C4: arrival time is distance over wave speed (default 3.5 km/s), so
`calculateArrivalTime 350 3.5 = 100` and `calculateArrivalTime 35 3.5 = 10`;
a warning is urgent exactly when its arrival time is strictly below 10
seconds, so exactly 10 s is not urgent while 9.99 s is. -/
theorem arrival_time_and_urgency :
    calculateArrivalTime 350 (3.5 : ℝ) = 100 ∧
    calculateArrivalTime 35 (3.5 : ℝ) = 10 ∧
    DEFAULT_WAVE_SPEED = (3.5 : ℝ) ∧
    (∀ t : ℝ, isUrgentFlag t = true ↔ t < 10) ∧
    isUrgentFlag (calculateArrivalTime 35) = false ∧
    isUrgentFlag (9.99 : ℝ) = true ∧
    (∀ eLat eLon mag users, List.Forall
      (fun w => w.is_urgent = true ↔ w.arrival_time_seconds < 10)
      (calculateWarningsForUsers eLat eLon mag users)) := by
  have harr : calculateArrivalTime 35 = (10 : ℝ) := by
    unfold calculateArrivalTime DEFAULT_WAVE_SPEED WAVE_SPEEDS
    norm_num
  refine ⟨?_, ?_, ?_, ?_, ?_, ?_, ?_⟩
  · unfold calculateArrivalTime; norm_num
  · unfold calculateArrivalTime; norm_num
  · unfold DEFAULT_WAVE_SPEED WAVE_SPEEDS; norm_num
  · intro t; simp [isUrgentFlag]
  · rw [harr]; simp [isUrgentFlag]
  · simp only [isUrgentFlag, decide_eq_true_eq]; norm_num
  · intro eLat eLon mag users
    rw [List.forall_iff_forall_mem]
    intro w hw
    obtain ⟨u, hu, hwu⟩ := mem_calculateWarningsForUsers hw
    obtain ⟨-, -, hurg⟩ := warningForUser_distance hwu
    rw [hurg]; simp [isUrgentFlag]

/-- C5: a candidate user whose great-circle distance from the epicenter
is below 1 km is skipped, so every returned warning has
`distance_km ≥ 1`. -/
theorem warnings_min_distance :
    (∀ eLat eLon u, calculateHaversineDistance eLat eLon u.latitude u.longitude < 1 →
      warningForUser eLat eLon u = none) ∧
    ∀ eLat eLon mag users, List.Forall (fun w => 1 ≤ w.distance_km)
      (calculateWarningsForUsers eLat eLon mag users) := by
  constructor
  · intro eLat eLon u hd
    unfold warningForUser
    simp [hd]
  · intro eLat eLon mag users
    rw [List.forall_iff_forall_mem]
    intro w hw
    obtain ⟨u, hu, hwu⟩ := mem_calculateWarningsForUsers hw
    exact (warningForUser_distance hwu).1

/-- Witness for C5: a user co-located with the epicenter (distance 0) is
skipped by the per-user warning computation. -/
theorem warnings_min_distance_witness :
    warningForUser 0 0 { user_id := "reporter", latitude := 0, longitude := 0 } = none :=
  warnings_min_distance.1 0 0 { user_id := "reporter", latitude := 0, longitude := 0 }
    (by rw [calculateHaversineDistance_same_point]; norm_num)

/-- C6: the warning list returned by `calculateWarningsForUsers` is
sorted in ascending order of `arrival_time_seconds`, for every input
set of candidate user locations. -/
theorem warnings_sorted_by_arrival :
    ∀ eLat eLon mag users, List.Sorted
      (fun a b : WarningCalculation => a.arrival_time_seconds ≤ b.arrival_time_seconds)
      (calculateWarningsForUsers eLat eLon mag users) := by
  intro eLat eLon mag users
  show List.Pairwise _ _
  simp only [calculateWarningsForUsers]
  have h : (List.mergeSort (users.filterMap (warningForUser eLat eLon))
      (fun a b => decide (a.arrival_time_seconds ≤ b.arrival_time_seconds))).Pairwise
      (fun a b : WarningCalculation =>
        decide (a.arrival_time_seconds ≤ b.arrival_time_seconds) = true) := by
    apply List.sorted_mergeSort
    · intro a b c h1 h2
      simp only [decide_eq_true_eq] at h1 h2 ⊢
      exact le_trans h1 h2
    · intro a b
      simp only [Bool.or_eq_true, decide_eq_true_eq]
      exact le_total _ _
  exact h.imp (fun hab => by simpa using hab)

/-! ## Intensity Calculator (earthquake-detection hook of src/hooks/useLocation.ts)

`calculateMagnitude` and the combined-intensity computation at the top of
`detectEarthquake`, embedded over `ℝ` (the source uses `Math.sqrt`). -/

/-- `interface SensorData { x, y, z }`. -/
structure SensorData where
  x : ℝ
  y : ℝ
  z : ℝ

/-- `calculateMagnitude(data) = Math.sqrt(x*x + y*y + z*z)`. -/
noncomputable def calculateMagnitude (data : SensorData) : ℝ :=
  Real.sqrt (data.x * data.x + data.y * data.y + data.z * data.z)

/-- The combined-intensity computation of `detectEarthquake`:
`accelDeviation = |accelMagnitude - 9.81|`, `gyroIntensity =
gyroMagnitude * 15`, `combinedIntensity = accelDeviation + gyroIntensity`,
applied to the magnitudes of one accelerometer and one gyroscope sample
(as in the `useEffect` that feeds `detectEarthquake`). -/
noncomputable def combinedIntensity (accel gyro : SensorData) : ℝ :=
  let accelDeviation := |calculateMagnitude accel - 9.81|
  let gyroIntensity := calculateMagnitude gyro * 15
  accelDeviation + gyroIntensity

/-! ## Event Detector state machine (earthquake-detection hook)

The detector's mutable refs are collected into `DetectorState`; one call
of `detectEarthquake(accelMagnitude, gyroMagnitude)` is one `detectTick`.
The arithmetic of the detector (no square roots are taken past this
point) is embedded over `ℚ` so every transition is decidable.
Finalizing an event hands the same record to `addEarthquakeEvent`
(history store) and `saveEarthquakeToDatabase` (database sink); the
`finalized` output field models that hand-off. -/

/-- `DETECTION_COOLDOWN = 10000; // 10 seconds between detections`. -/
def DETECTION_COOLDOWN : ℚ := 10000

/-- `BUFFER_SIZE = 10`. -/
def BUFFER_SIZE : Nat := 10

/-- `MIN_EVENT_DURATION = 2000; // Minimum 2 seconds`. -/
def MIN_EVENT_DURATION : ℚ := 2000

/-- `INTENSITY_BUFFER_SIZE = 20`. -/
def INTENSITY_BUFFER_SIZE : Nat := 20

/-- `EMERGENCY_DEFENSE_THRESHOLD = 2.5`. -/
def EMERGENCY_DEFENSE_THRESHOLD : ℚ := 2.5

/-- `const baseThreshold = 1.2` (inside `detectEarthquake`). -/
def baseThreshold : ℚ := 1.2

/-- `buf.push(v); if (buf.length > cap) buf.shift();`. -/
def pushCapped (cap : Nat) (buf : List ℚ) (v : ℚ) : List ℚ :=
  let b := buf ++ [v]
  if cap < b.length then b.tail else b

/-- `buf.reduce((sum, val) => sum + val, 0)`. -/
def listSum (buf : List ℚ) : ℚ :=
  buf.foldl (· + ·) 0

/-- The mutable refs of the detection hook. -/
structure DetectorState where
  detectionBuffer : List ℚ
  lastDetectionTime : ℚ
  eventStartTime : ℚ
  isInEvent : Bool
  peakAcceleration : ℚ
  eventIntensityBuffer : List ℚ
  defenseActivationAttempted : Bool
  deriving DecidableEq

/-- Configuration read by the hook: the `sensitivity` setting and
whether an `activateEmergencyDefense` callback was supplied. -/
structure DetectorConfig where
  sensitivity : ℚ
  hasDefenseCallback : Bool
  deriving DecidableEq

/-- One sampling tick: `Date.now()` and the two magnitudes passed to
`detectEarthquake`. -/
structure Tick where
  now : ℚ
  accelMagnitude : ℚ
  gyroMagnitude : ℚ
  deriving DecidableEq

/-- The record finalized at event end (fed to both `addEarthquakeEvent`
and `saveEarthquakeToDatabase`). -/
structure EventData where
  startTime : ℚ
  intensity : ℚ
  duration : ℚ
  peakAcceleration : ℚ
  deriving DecidableEq

/-- Externally visible effects of one tick. -/
structure StepOutput where
  finalized : Option EventData
  defenseInvoked : Bool
  deriving DecidableEq

/-- `activateEmergencyDefenseIfNeeded(intensity)`: fires the callback
only when the per-event attempted flag is unset, the intensity exceeds
2.5 and a callback exists; returns (new attempted flag, whether the
callback was invoked). -/
def activateEmergencyDefenseIfNeeded (hasCallback attempted : Bool) (intensity : ℚ) :
    Bool × Bool :=
  if attempted = false ∧ EMERGENCY_DEFENSE_THRESHOLD < intensity ∧ hasCallback = true then
    (true, true)
  else
    (attempted, false)

/-- One call of `detectEarthquake(accelMagnitude, gyroMagnitude)`. -/
def detectTick (cfg : DetectorConfig) (s : DetectorState) (t : Tick) :
    DetectorState × StepOutput :=
  let combined := |t.accelMagnitude - 9.81| + t.gyroMagnitude * 15
  let detectionBuffer := pushCapped BUFFER_SIZE s.detectionBuffer combined
  let eventBuffer :=
    if s.isInEvent then pushCapped INTENSITY_BUFFER_SIZE s.eventIntensityBuffer combined
    else s.eventIntensityBuffer
  let threshold := baseThreshold * cfg.sensitivity
  let averageIntensity := listSum detectionBuffer / (detectionBuffer.length : ℚ)
  let base :=
    if (threshold < combined ∧ threshold * 0.8 < averageIntensity ∧
        DETECTION_COOLDOWN < t.now - s.lastDetectionTime) ∧ s.isInEvent = false then
      -- start of earthquake event (the attempted flag is reset to false
      -- just before `activateEmergencyDefenseIfNeeded` runs)
      let def1 := activateEmergencyDefenseIfNeeded cfg.hasDefenseCallback false combined
      ({ detectionBuffer := detectionBuffer
         lastDetectionTime := t.now
         eventStartTime := t.now
         isInEvent := true
         peakAcceleration := t.accelMagnitude
         eventIntensityBuffer := [combined]
         defenseActivationAttempted := def1.1 },
       { finalized := none, defenseInvoked := def1.2 })
    else if s.isInEvent then
      let def2 := activateEmergencyDefenseIfNeeded cfg.hasDefenseCallback
        s.defenseActivationAttempted combined
      if ¬ (threshold < combined) then
        -- end of earthquake event
        let eventDuration := (t.now - s.eventStartTime) / 1000
        let finalized :=
          if MIN_EVENT_DURATION / 1000 ≤ eventDuration then
            some { startTime := s.eventStartTime
                   intensity :=
                     if 0 < eventBuffer.length then
                       listSum eventBuffer / (eventBuffer.length : ℚ)
                     else combined
                   duration := eventDuration
                   peakAcceleration := s.peakAcceleration }
          else
            none
        ({ detectionBuffer := detectionBuffer
           lastDetectionTime := s.lastDetectionTime
           eventStartTime := s.eventStartTime
           isInEvent := false
           peakAcceleration := 0
           eventIntensityBuffer := []
           defenseActivationAttempted := false },
         { finalized := finalized, defenseInvoked := def2.2 })
      else
        ({ s with detectionBuffer := detectionBuffer
                  eventIntensityBuffer := eventBuffer
                  defenseActivationAttempted := def2.1 },
         { finalized := none, defenseInvoked := def2.2 })
    else
      ({ s with detectionBuffer := detectionBuffer },
       { finalized := none, defenseInvoked := false })
  -- trailing `if (isInEvent.current && accelMagnitude > peakAcceleration.current)`
  let s1 := base.1
  let s2 :=
    if s1.isInEvent = true ∧ s1.peakAcceleration < t.accelMagnitude then
      { s1 with peakAcceleration := t.accelMagnitude }
    else s1
  (s2, base.2)

/-- Run the detector over a list of ticks, collecting the outputs. -/
def detectRun (cfg : DetectorConfig) (s : DetectorState) : List Tick →
    DetectorState × List StepOutput
  | [] => (s, [])
  | t :: ts =>
    let st := detectTick cfg s t
    let rest := detectRun cfg st.1 ts
    (rest.1, st.2 :: rest.2)

/-- The successive states visited while running over a list of ticks
(state after the first tick first). -/
def detectStates (cfg : DetectorConfig) (s : DetectorState) : List Tick →
    List DetectorState
  | [] => []
  | t :: ts =>
    let s1 := (detectTick cfg s t).1
    s1 :: detectStates cfg s1 ts

/-- Number of ticks of a run on which the defense callback was invoked. -/
def countDefenseInvocations (cfg : DetectorConfig) (s : DetectorState)
    (ts : List Tick) : Nat :=
  ((detectRun cfg s ts).2.filter (fun o => o.defenseInvoked)).length

/-! ### Sample inputs used by the witnesses below -/

/-- The detector's initial state (all refs at their initial values). -/
def initDetectorState : DetectorState :=
  { detectionBuffer := []
    lastDetectionTime := 0
    eventStartTime := 0
    isInEvent := false
    peakAcceleration := 0
    eventIntensityBuffer := []
    defenseActivationAttempted := false }

/-- Sensitivity 1.0, defense callback supplied. -/
def sampleConfig : DetectorConfig :=
  { sensitivity := 1, hasDefenseCallback := true }

/-- A tick strong enough to start an event (combined intensity 2.19). -/
def tickStrong : Tick :=
  { now := 20000, accelMagnitude := 12, gyroMagnitude := 0 }

/-- A quiet tick 2.5 s after `tickStrong` (combined intensity 0). -/
def tickQuiet : Tick :=
  { now := 22500, accelMagnitude := 9.81, gyroMagnitude := 0 }

/-- A quiet tick only 1.5 s after `tickStrong`. -/
def tickQuietEarly : Tick :=
  { now := 21500, accelMagnitude := 9.81, gyroMagnitude := 0 }

/-- A violent tick (combined intensity 25.19 > 2.5). -/
def tickHuge : Tick :=
  { now := 20001, accelMagnitude := 20, gyroMagnitude := 1 }

/-- The state after `tickStrong` started an event from the initial state:
one intensity 2.19 in both buffers, event started at t = 20000 ms. -/
def sampleInEventState : DetectorState :=
  { detectionBuffer := [2.19]
    lastDetectionTime := 20000
    eventStartTime := 20000
    isInEvent := true
    peakAcceleration := 12
    eventIntensityBuffer := [2.19]
    defenseActivationAttempted := false }

/-! ### Branch evaluation lemmas for `detectTick` -/

lemma detectTick_in_event_above (cfg : DetectorConfig) (s : DetectorState) (t : Tick)
    (hin : s.isInEvent = true)
    (hab : baseThreshold * cfg.sensitivity <
      |t.accelMagnitude - 9.81| + t.gyroMagnitude * 15) :
    (detectTick cfg s t).2.finalized = none ∧
    (detectTick cfg s t).1.isInEvent = true ∧
    (detectTick cfg s t).1.defenseActivationAttempted =
      (activateEmergencyDefenseIfNeeded cfg.hasDefenseCallback s.defenseActivationAttempted
        (|t.accelMagnitude - 9.81| + t.gyroMagnitude * 15)).1 ∧
    (detectTick cfg s t).2.defenseInvoked =
      (activateEmergencyDefenseIfNeeded cfg.hasDefenseCallback s.defenseActivationAttempted
        (|t.accelMagnitude - 9.81| + t.gyroMagnitude * 15)).2 := by
  obtain ⟨buf, ldt, est, inev, peak, ebuf, att⟩ := s
  have h2 : inev = true := hin
  subst h2
  by_cases hpk : peak < t.accelMagnitude <;> simp [detectTick, hab, hpk]

lemma detectTick_in_event_end (cfg : DetectorConfig) (s : DetectorState) (t : Tick)
    (hin : s.isInEvent = true)
    (hab : ¬ baseThreshold * cfg.sensitivity <
      |t.accelMagnitude - 9.81| + t.gyroMagnitude * 15) :
    (detectTick cfg s t).1 =
      { detectionBuffer := pushCapped BUFFER_SIZE s.detectionBuffer
          (|t.accelMagnitude - 9.81| + t.gyroMagnitude * 15)
        lastDetectionTime := s.lastDetectionTime
        eventStartTime := s.eventStartTime
        isInEvent := false
        peakAcceleration := 0
        eventIntensityBuffer := []
        defenseActivationAttempted := false } ∧
    (detectTick cfg s t).2.finalized =
      (if MIN_EVENT_DURATION / 1000 ≤ (t.now - s.eventStartTime) / 1000 then
        some { startTime := s.eventStartTime
               intensity :=
                 if 0 < (pushCapped INTENSITY_BUFFER_SIZE s.eventIntensityBuffer
                     (|t.accelMagnitude - 9.81| + t.gyroMagnitude * 15)).length then
                   listSum (pushCapped INTENSITY_BUFFER_SIZE s.eventIntensityBuffer
                       (|t.accelMagnitude - 9.81| + t.gyroMagnitude * 15)) /
                     ((pushCapped INTENSITY_BUFFER_SIZE s.eventIntensityBuffer
                       (|t.accelMagnitude - 9.81| + t.gyroMagnitude * 15)).length : ℚ)
                 else |t.accelMagnitude - 9.81| + t.gyroMagnitude * 15
               duration := (t.now - s.eventStartTime) / 1000
               peakAcceleration := s.peakAcceleration }
      else none) ∧
    (detectTick cfg s t).2.defenseInvoked =
      (activateEmergencyDefenseIfNeeded cfg.hasDefenseCallback s.defenseActivationAttempted
        (|t.accelMagnitude - 9.81| + t.gyroMagnitude * 15)).2 := by
  obtain ⟨buf, ldt, est, inev, peak, ebuf, att⟩ := s
  have h2 : inev = true := hin
  subst h2
  simp [detectTick, hab]

lemma detectTick_idle_start (cfg : DetectorConfig) (s : DetectorState) (t : Tick)
    (hidle : s.isInEvent = false)
    (hc : baseThreshold * cfg.sensitivity <
        |t.accelMagnitude - 9.81| + t.gyroMagnitude * 15 ∧
      baseThreshold * cfg.sensitivity * 0.8 <
        listSum (pushCapped BUFFER_SIZE s.detectionBuffer
            (|t.accelMagnitude - 9.81| + t.gyroMagnitude * 15)) /
          ((pushCapped BUFFER_SIZE s.detectionBuffer
            (|t.accelMagnitude - 9.81| + t.gyroMagnitude * 15)).length : ℚ) ∧
      DETECTION_COOLDOWN < t.now - s.lastDetectionTime) :
    (detectTick cfg s t).1 =
      { detectionBuffer := pushCapped BUFFER_SIZE s.detectionBuffer
          (|t.accelMagnitude - 9.81| + t.gyroMagnitude * 15)
        lastDetectionTime := t.now
        eventStartTime := t.now
        isInEvent := true
        peakAcceleration := t.accelMagnitude
        eventIntensityBuffer := [|t.accelMagnitude - 9.81| + t.gyroMagnitude * 15]
        defenseActivationAttempted :=
          (activateEmergencyDefenseIfNeeded cfg.hasDefenseCallback false
            (|t.accelMagnitude - 9.81| + t.gyroMagnitude * 15)).1 } ∧
    (detectTick cfg s t).2.finalized = none ∧
    (detectTick cfg s t).2.defenseInvoked =
      (activateEmergencyDefenseIfNeeded cfg.hasDefenseCallback false
        (|t.accelMagnitude - 9.81| + t.gyroMagnitude * 15)).2 := by
  obtain ⟨buf, ldt, est, inev, peak, ebuf, att⟩ := s
  have h2 : inev = false := hidle
  subst h2
  obtain ⟨hc1, hc2, hc3⟩ := hc
  simp [detectTick, hc1, hc2, hc3]

lemma detectTick_idle_stay (cfg : DetectorConfig) (s : DetectorState) (t : Tick)
    (hidle : s.isInEvent = false)
    (hc : ¬ (baseThreshold * cfg.sensitivity <
        |t.accelMagnitude - 9.81| + t.gyroMagnitude * 15 ∧
      baseThreshold * cfg.sensitivity * 0.8 <
        listSum (pushCapped BUFFER_SIZE s.detectionBuffer
            (|t.accelMagnitude - 9.81| + t.gyroMagnitude * 15)) /
          ((pushCapped BUFFER_SIZE s.detectionBuffer
            (|t.accelMagnitude - 9.81| + t.gyroMagnitude * 15)).length : ℚ) ∧
      DETECTION_COOLDOWN < t.now - s.lastDetectionTime)) :
    (detectTick cfg s t).1 =
      { s with
          detectionBuffer := pushCapped BUFFER_SIZE s.detectionBuffer
            (|t.accelMagnitude - 9.81| + t.gyroMagnitude * 15) } ∧
    (detectTick cfg s t).2.finalized = none ∧
    (detectTick cfg s t).2.defenseInvoked = false := by
  obtain ⟨buf, ldt, est, inev, peak, ebuf, att⟩ := s
  have h2 : inev = false := hidle
  subst h2
  simp [detectTick, hc]

/-! ### Claim theorems for the Intensity Calculator and Event Detector -/

/-- C2: the combined intensity of an accelerometer and a gyroscope
sample is `|sqrt(ax²+ay²+az²) - 9.81| + 15 * sqrt(gx²+gy²+gz²)`; it is
non-negative for all samples, and deterministic (equal inputs give equal
outputs).  Real numbers carry no infinities or NaN, so the value is
finite by construction of the embedding. -/
theorem combinedIntensity_spec :
    (∀ accel gyro : SensorData,
      combinedIntensity accel gyro =
        |Real.sqrt (accel.x ^ 2 + accel.y ^ 2 + accel.z ^ 2) - 9.81| +
          15 * Real.sqrt (gyro.x ^ 2 + gyro.y ^ 2 + gyro.z ^ 2)) ∧
    (∀ accel gyro : SensorData, 0 ≤ combinedIntensity accel gyro) ∧
    (∀ a1 g1 a2 g2 : SensorData, a1 = a2 → g1 = g2 →
      combinedIntensity a1 g1 = combinedIntensity a2 g2) := by
  refine ⟨?_, ?_, ?_⟩
  · intro accel gyro
    unfold combinedIntensity calculateMagnitude
    have hsq : ∀ u v w : ℝ, u * u + v * v + w * w = u ^ 2 + v ^ 2 + w ^ 2 :=
      fun u v w => by ring
    rw [hsq, hsq]
    ring
  · intro accel gyro
    have h1 : 0 ≤ |calculateMagnitude accel - 9.81| := abs_nonneg _
    have h2 : 0 ≤ calculateMagnitude gyro := Real.sqrt_nonneg _
    unfold combinedIntensity
    nlinarith
  · intro a1 g1 a2 g2 h1 h2
    rw [h1, h2]

/-- Witness for C2 at the zero sample. -/
theorem combinedIntensity_spec_witness :
    combinedIntensity ⟨0, 0, 0⟩ ⟨0, 0, 0⟩ = combinedIntensity ⟨0, 0, 0⟩ ⟨0, 0, 0⟩ ∧
    0 ≤ combinedIntensity ⟨0, 0, 0⟩ ⟨0, 0, 0⟩ :=
  ⟨combinedIntensity_spec.2.2 ⟨0, 0, 0⟩ ⟨0, 0, 0⟩ ⟨0, 0, 0⟩ ⟨0, 0, 0⟩ rfl rfl,
   combinedIntensity_spec.2.1 ⟨0, 0, 0⟩ ⟨0, 0, 0⟩⟩

/-- C3: from the idle state, a tick starts an event exactly when the
combined intensity exceeds `1.2 * sensitivity`, the average over the
10-sample sliding window exceeds `0.8` times that threshold, and more
than 10000 ms have elapsed since the last detection. -/
theorem idle_starts_event_iff :
    ∀ cfg s t, s.isInEvent = false →
      ((detectTick cfg s t).1.isInEvent = true ↔
        (1.2 * cfg.sensitivity < |t.accelMagnitude - 9.81| + t.gyroMagnitude * 15 ∧
          1.2 * cfg.sensitivity * 0.8 <
            listSum (pushCapped 10 s.detectionBuffer
                (|t.accelMagnitude - 9.81| + t.gyroMagnitude * 15)) /
              ((pushCapped 10 s.detectionBuffer
                (|t.accelMagnitude - 9.81| + t.gyroMagnitude * 15)).length : ℚ) ∧
          10000 < t.now - s.lastDetectionTime)) := by
  intro cfg s t h
  by_cases hc : baseThreshold * cfg.sensitivity <
      |t.accelMagnitude - 9.81| + t.gyroMagnitude * 15 ∧
      baseThreshold * cfg.sensitivity * 0.8 <
        listSum (pushCapped BUFFER_SIZE s.detectionBuffer
            (|t.accelMagnitude - 9.81| + t.gyroMagnitude * 15)) /
          ((pushCapped BUFFER_SIZE s.detectionBuffer
            (|t.accelMagnitude - 9.81| + t.gyroMagnitude * 15)).length : ℚ) ∧
      DETECTION_COOLDOWN < t.now - s.lastDetectionTime
  · rw [(detectTick_idle_start cfg s t h hc).1]
    constructor
    · intro _
      simpa [baseThreshold, BUFFER_SIZE, DETECTION_COOLDOWN] using hc
    · intro _
      rfl
  · rw [(detectTick_idle_stay cfg s t h hc).1]
    constructor
    · intro habs
      have : s.isInEvent = true := habs
      rw [h] at this
      cases this
    · intro hrhs
      exact absurd (by simpa [baseThreshold, BUFFER_SIZE, DETECTION_COOLDOWN] using hrhs) hc

/-- Witness for C3: from the initial state, `tickStrong` (combined
intensity 2.19 against threshold 1.2) starts an event. -/
theorem idle_starts_event_iff_witness :
    (detectTick sampleConfig initDetectorState tickStrong).1.isInEvent = true :=
  (idle_starts_event_iff sampleConfig initDetectorState tickStrong rfl).mpr (by decide)

/-- C1: a finalized record is handed to the history store and database
sink on a tick if and only if that tick ends an event (detector in
event, intensity at or below threshold) whose elapsed duration since the
starting tick is at least 2.0 seconds; on every event-ending tick —
whether or not the record was produced — the event-scoped state is
reset. -/
theorem event_finalized_iff_min_duration :
    ∀ cfg s t,
      (((detectTick cfg s t).2.finalized).isSome = true ↔
        (s.isInEvent = true ∧
          |t.accelMagnitude - 9.81| + t.gyroMagnitude * 15 ≤ 1.2 * cfg.sensitivity ∧
          2 ≤ (t.now - s.eventStartTime) / 1000)) ∧
      (s.isInEvent = true →
        |t.accelMagnitude - 9.81| + t.gyroMagnitude * 15 ≤ 1.2 * cfg.sensitivity →
        ((detectTick cfg s t).1.isInEvent = false ∧
         (detectTick cfg s t).1.peakAcceleration = 0 ∧
         (detectTick cfg s t).1.eventIntensityBuffer = [] ∧
         (detectTick cfg s t).1.defenseActivationAttempted = false)) := by
  intro cfg s t
  have hmd : MIN_EVENT_DURATION / 1000 = (2 : ℚ) := by decide
  by_cases hin : s.isInEvent = true
  · by_cases hab : baseThreshold * cfg.sensitivity <
        |t.accelMagnitude - 9.81| + t.gyroMagnitude * 15
    · obtain ⟨hfin, -, -, -⟩ := detectTick_in_event_above cfg s t hin hab
      have hnle : ¬ |t.accelMagnitude - 9.81| + t.gyroMagnitude * 15 ≤
          1.2 * cfg.sensitivity := not_le.mpr (by simpa [baseThreshold] using hab)
      constructor
      · rw [hfin]
        simp [hnle]
      · intro _ hle
        exact absurd hle hnle
    · obtain ⟨hst, hfin, -⟩ := detectTick_in_event_end cfg s t hin hab
      have hle : |t.accelMagnitude - 9.81| + t.gyroMagnitude * 15 ≤
          1.2 * cfg.sensitivity := by
        simpa [baseThreshold] using not_lt.mp hab
      constructor
      · rw [hfin, hmd]
        by_cases hdur : (2 : ℚ) ≤ (t.now - s.eventStartTime) / 1000
        · simp [hdur, hin, hle]
        · simp [hdur]
      · intro _ _
        rw [hst]
        exact ⟨rfl, rfl, rfl, rfl⟩
  · have hidle : s.isInEvent = false := by
      cases hs : s.isInEvent
      · rfl
      · exact absurd hs hin
    constructor
    · by_cases hc : baseThreshold * cfg.sensitivity <
            |t.accelMagnitude - 9.81| + t.gyroMagnitude * 15 ∧
          baseThreshold * cfg.sensitivity * 0.8 <
            listSum (pushCapped BUFFER_SIZE s.detectionBuffer
                (|t.accelMagnitude - 9.81| + t.gyroMagnitude * 15)) /
              ((pushCapped BUFFER_SIZE s.detectionBuffer
                (|t.accelMagnitude - 9.81| + t.gyroMagnitude * 15)).length : ℚ) ∧
          DETECTION_COOLDOWN < t.now - s.lastDetectionTime
      · rw [(detectTick_idle_start cfg s t hidle hc).2.1]
        simp [hidle]
      · rw [(detectTick_idle_stay cfg s t hidle hc).2.1]
        simp [hidle]
    · intro hcontra
      exact absurd hcontra (by simp [hidle])

/-- Witness for C1: ending the sample event 2.5 s after it started
produces a record and resets the event-scoped state; the projections
are supplied by the claim theorem applied at those inputs. -/
theorem event_finalized_iff_min_duration_witness :
    ((detectTick sampleConfig sampleInEventState tickQuiet).2.finalized).isSome = true ∧
    (detectTick sampleConfig sampleInEventState tickQuiet).1.isInEvent = false ∧
    (detectTick sampleConfig sampleInEventState tickQuiet).1.peakAcceleration = 0 ∧
    (detectTick sampleConfig sampleInEventState tickQuiet).1.eventIntensityBuffer = [] ∧
    (detectTick sampleConfig sampleInEventState tickQuiet).1.defenseActivationAttempted = false :=
  ⟨((event_finalized_iff_min_duration sampleConfig sampleInEventState tickQuiet).1).mpr
      ⟨rfl, by decide, by decide⟩,
   (event_finalized_iff_min_duration sampleConfig sampleInEventState tickQuiet).2
      rfl (by decide)⟩

/-! ### At-most-once defense activation (machinery for the per-event guard) -/

lemma activateIfNeeded_spec (cb a : Bool) (i : ℚ) :
    (activateEmergencyDefenseIfNeeded cb a i).1 =
      (a || (activateEmergencyDefenseIfNeeded cb a i).2) ∧
    ((activateEmergencyDefenseIfNeeded cb a i).2 = true → a = false) := by
  unfold activateEmergencyDefenseIfNeeded
  by_cases h : a = false ∧ EMERGENCY_DEFENSE_THRESHOLD < i ∧ cb = true
  · rw [if_pos h]
    exact ⟨by simp [h.1], fun _ => h.1⟩
  · simp [h]

lemma countDefenseInvocations_nil (cfg : DetectorConfig) (s : DetectorState) :
    countDefenseInvocations cfg s [] = 0 := by
  simp [countDefenseInvocations, detectRun]

lemma countDefenseInvocations_cons (cfg : DetectorConfig) (s : DetectorState)
    (t : Tick) (ts : List Tick) :
    countDefenseInvocations cfg s (t :: ts) =
      (if (detectTick cfg s t).2.defenseInvoked = true then 1 else 0) +
        countDefenseInvocations cfg (detectTick cfg s t).1 ts := by
  cases h : (detectTick cfg s t).2.defenseInvoked <;>
    simp [countDefenseInvocations, detectRun, h, Nat.add_comm]

lemma detectTick_in_event_invoked (cfg : DetectorConfig) (s : DetectorState) (t : Tick)
    (hin : s.isInEvent = true) :
    (detectTick cfg s t).2.defenseInvoked =
      (activateEmergencyDefenseIfNeeded cfg.hasDefenseCallback s.defenseActivationAttempted
        (|t.accelMagnitude - 9.81| + t.gyroMagnitude * 15)).2 := by
  by_cases hab : baseThreshold * cfg.sensitivity <
      |t.accelMagnitude - 9.81| + t.gyroMagnitude * 15
  · exact (detectTick_in_event_above cfg s t hin hab).2.2.2
  · exact (detectTick_in_event_end cfg s t hin hab).2.2

lemma detectTick_in_event_stay_attempted (cfg : DetectorConfig) (s : DetectorState)
    (t : Tick) (hin : s.isInEvent = true)
    (hstay : (detectTick cfg s t).1.isInEvent = true) :
    (detectTick cfg s t).1.defenseActivationAttempted =
      (activateEmergencyDefenseIfNeeded cfg.hasDefenseCallback s.defenseActivationAttempted
        (|t.accelMagnitude - 9.81| + t.gyroMagnitude * 15)).1 := by
  by_cases hab : baseThreshold * cfg.sensitivity <
      |t.accelMagnitude - 9.81| + t.gyroMagnitude * 15
  · exact (detectTick_in_event_above cfg s t hin hab).2.2.1
  · exfalso
    have := (detectTick_in_event_end cfg s t hin hab).1
    rw [this] at hstay
    cases hstay

/-- During an event (all intermediate states except possibly the one
after the last tick still in event), the number of defense invocations
is at most 1, and 0 once the per-event attempted flag is set. -/
lemma count_in_event_le (cfg : DetectorConfig) :
    ∀ (ts : List Tick) (s : DetectorState),
      s.isInEvent = true →
      (∀ s' ∈ (detectStates cfg s ts).dropLast, s'.isInEvent = true) →
      countDefenseInvocations cfg s ts ≤
        (if s.defenseActivationAttempted = true then 0 else 1)
  | [], s, _, _ => by
    simp [countDefenseInvocations_nil]
  | [t], s, hin, _ => by
    rw [countDefenseInvocations_cons, countDefenseInvocations_nil,
      detectTick_in_event_invoked cfg s t hin]
    have hsnd := (activateIfNeeded_spec cfg.hasDefenseCallback
      s.defenseActivationAttempted
      (|t.accelMagnitude - 9.81| + t.gyroMagnitude * 15)).2
    revert hsnd
    generalize (activateEmergencyDefenseIfNeeded cfg.hasDefenseCallback
      s.defenseActivationAttempted
      (|t.accelMagnitude - 9.81| + t.gyroMagnitude * 15)).2 = inv
    generalize s.defenseActivationAttempted = att
    intro hsnd
    cases att <;> cases inv <;> simp_all
  | t :: t2 :: ts, s, hin, hall => by
    have hstates : detectStates cfg s (t :: t2 :: ts) =
        (detectTick cfg s t).1 :: detectStates cfg (detectTick cfg s t).1 (t2 :: ts) := by
      simp [detectStates]
    have hne : detectStates cfg (detectTick cfg s t).1 (t2 :: ts) ≠ [] := by
      simp [detectStates]
    have hstay : (detectTick cfg s t).1.isInEvent = true := by
      apply hall
      rw [hstates, List.dropLast_cons_of_ne_nil hne]
      exact List.mem_cons_self _ _
    have hall2 : ∀ s' ∈ (detectStates cfg (detectTick cfg s t).1 (t2 :: ts)).dropLast,
        s'.isInEvent = true := by
      intro s' hs'
      apply hall
      rw [hstates, List.dropLast_cons_of_ne_nil hne]
      exact List.mem_cons_of_mem _ hs'
    have ih := count_in_event_le cfg (t2 :: ts) (detectTick cfg s t).1 hstay hall2
    rw [countDefenseInvocations_cons,
      detectTick_in_event_invoked cfg s t hin]
    rw [detectTick_in_event_stay_attempted cfg s t hin hstay,
      (activateIfNeeded_spec cfg.hasDefenseCallback s.defenseActivationAttempted
        (|t.accelMagnitude - 9.81| + t.gyroMagnitude * 15)).1] at ih
    have hsnd := (activateIfNeeded_spec cfg.hasDefenseCallback
      s.defenseActivationAttempted
      (|t.accelMagnitude - 9.81| + t.gyroMagnitude * 15)).2
    revert ih hsnd
    generalize (activateEmergencyDefenseIfNeeded cfg.hasDefenseCallback
      s.defenseActivationAttempted
      (|t.accelMagnitude - 9.81| + t.gyroMagnitude * 15)).2 = inv
    generalize s.defenseActivationAttempted = att
    intro ih hsnd
    cases att <;> cases inv <;> simp_all

lemma detectTick_start_invoked (cfg : DetectorConfig) (s : DetectorState) (t : Tick)
    (hidle : s.isInEvent = false)
    (hstart : (detectTick cfg s t).1.isInEvent = true) :
    (detectTick cfg s t).2.defenseInvoked =
      (activateEmergencyDefenseIfNeeded cfg.hasDefenseCallback false
        (|t.accelMagnitude - 9.81| + t.gyroMagnitude * 15)).2 ∧
    (detectTick cfg s t).1.defenseActivationAttempted =
      (activateEmergencyDefenseIfNeeded cfg.hasDefenseCallback false
        (|t.accelMagnitude - 9.81| + t.gyroMagnitude * 15)).1 := by
  by_cases hc : baseThreshold * cfg.sensitivity <
      |t.accelMagnitude - 9.81| + t.gyroMagnitude * 15 ∧
      baseThreshold * cfg.sensitivity * 0.8 <
        listSum (pushCapped BUFFER_SIZE s.detectionBuffer
            (|t.accelMagnitude - 9.81| + t.gyroMagnitude * 15)) /
          ((pushCapped BUFFER_SIZE s.detectionBuffer
            (|t.accelMagnitude - 9.81| + t.gyroMagnitude * 15)).length : ℚ) ∧
      DETECTION_COOLDOWN < t.now - s.lastDetectionTime
  · have h := detectTick_idle_start cfg s t hidle hc
    exact ⟨h.2.2, by rw [h.1]⟩
  · exfalso
    have h := (detectTick_idle_stay cfg s t hidle hc).1
    rw [h] at hstart
    have h2 : s.isInEvent = true := hstart
    rw [hidle] at h2
    cases h2

/-- C9: within a single detected event — the tick that starts it plus
any further ticks during which the detector stays in event (the state
after the last given tick may have left the event) — defense-mode
auto-activation is invoked at most once; the per-event attempted flag is
reset when the event ends, and a fresh event whose starting intensity
exceeds 2.5 invokes the callback again. -/
theorem defense_at_most_once_per_event :
    (∀ cfg (s : DetectorState) (t : Tick) (ts : List Tick),
      s.isInEvent = false →
      (detectTick cfg s t).1.isInEvent = true →
      (∀ s' ∈ (detectStates cfg (detectTick cfg s t).1 ts).dropLast,
        s'.isInEvent = true) →
      countDefenseInvocations cfg s (t :: ts) ≤ 1) ∧
    (∀ cfg (s : DetectorState) (t : Tick),
      s.isInEvent = true →
      |t.accelMagnitude - 9.81| + t.gyroMagnitude * 15 ≤ 1.2 * cfg.sensitivity →
      (detectTick cfg s t).1.defenseActivationAttempted = false) ∧
    (∀ cfg (s : DetectorState) (t : Tick),
      s.isInEvent = false →
      (detectTick cfg s t).1.isInEvent = true →
      cfg.hasDefenseCallback = true →
      2.5 < |t.accelMagnitude - 9.81| + t.gyroMagnitude * 15 →
      (detectTick cfg s t).2.defenseInvoked = true) := by
  refine ⟨?_, ?_, ?_⟩
  · intro cfg s t ts hidle hstart hall
    rw [countDefenseInvocations_cons]
    have hinv := (detectTick_start_invoked cfg s t hidle hstart).1
    have hatt := (detectTick_start_invoked cfg s t hidle hstart).2
    have hcount := count_in_event_le cfg ts (detectTick cfg s t).1 hstart hall
    rw [hatt, (activateIfNeeded_spec cfg.hasDefenseCallback false
      (|t.accelMagnitude - 9.81| + t.gyroMagnitude * 15)).1] at hcount
    rw [hinv]
    revert hcount
    generalize (activateEmergencyDefenseIfNeeded cfg.hasDefenseCallback false
      (|t.accelMagnitude - 9.81| + t.gyroMagnitude * 15)).2 = inv
    intro hcount
    cases inv <;> simp_all
  · intro cfg s t hin hle
    have hab : ¬ baseThreshold * cfg.sensitivity <
        |t.accelMagnitude - 9.81| + t.gyroMagnitude * 15 :=
      not_lt.mpr (by simpa [baseThreshold] using hle)
    rw [(detectTick_in_event_end cfg s t hin hab).1]
  · intro cfg s t hidle hstart hcb hgt
    rw [(detectTick_start_invoked cfg s t hidle hstart).1]
    unfold activateEmergencyDefenseIfNeeded
    rw [if_pos ⟨rfl, by simpa [EMERGENCY_DEFENSE_THRESHOLD] using hgt, hcb⟩]

/-- Witness for C9: the sample run (event started by `tickStrong`, two
violent in-event ticks, quiet ending tick) invokes the defense callback
at most once; the ending tick resets the attempted flag; a fresh event
started by a violent tick invokes it. -/
theorem defense_at_most_once_per_event_witness :
    countDefenseInvocations sampleConfig initDetectorState
      [tickStrong, tickHuge, tickHuge, tickQuiet] ≤ 1 ∧
    (detectTick sampleConfig sampleInEventState tickQuiet).1.defenseActivationAttempted
      = false ∧
    (detectTick sampleConfig initDetectorState tickHuge).2.defenseInvoked = true :=
  ⟨defense_at_most_once_per_event.1 sampleConfig initDetectorState tickStrong
      [tickHuge, tickHuge, tickQuiet] rfl (by decide) (by decide),
   defense_at_most_once_per_event.2.1 sampleConfig sampleInEventState tickQuiet
      rfl (by decide),
   defense_at_most_once_per_event.2.2 sampleConfig initDetectorState tickHuge
      rfl (by decide) rfl (by decide)⟩

/-! ## Defense Mode Controller (src/hooks/useEmergencyDefense.ts)

The hook state is `EmergencyDefenseState`; each operation additionally
interacts with collaborators (brightness get/set, DOM style mutations on
web, location fetch, database insert).  `DefenseEnv` records the outcome
each collaborator call would produce, so an operation is a pure function
of the state, the current time (ms) and the environment. -/

/-- `EmergencyDefenseState` of the hook (timestamps in ms). -/
structure EmergencyDefenseState where
  isActive : Bool
  originalBrightness : Option ℚ
  batterySavingEnabled : Bool
  locationSent : Bool
  falseAlarmDisabled : Bool
  falseAlarmDisabledUntil : Option ℚ
  brightnessRestored : Bool
  isInitialized : Bool
  deriving DecidableEq

/-- Collaborator-call outcomes for one controller operation.  `webDim`
and `webBattery` are the two separately-guarded DOM mutation blocks of
the web code path. -/
structure DefenseEnv where
  platformIsWeb : Bool
  getBrightness : Except Unit ℚ
  setBrightness : ℚ → Except Unit Unit
  webDim : Except Unit Unit
  webBattery : Except Unit Unit
  currentLocation : Option (ℚ × ℚ)
  insertLocationFails : Bool

/-- JavaScript `v || dflt` on a nullable number: `null` and `0` are
falsy and select the default. -/
def jsOrDefault (v : Option ℚ) (dflt : ℚ) : ℚ :=
  match v with
  | none => dflt
  | some b => if b = 0 then dflt else b

/-- `initializeBrightnessState`: the brightness probe (and the
restore-if-very-low write) touches only the device; the hook state
gains `isInitialized := true`, also when the probe throws. -/
def initBrightnessState (s : EmergencyDefenseState) : EmergencyDefenseState :=
  if s.isInitialized then s else { s with isInitialized := true }

/-- `checkFalseAlarmStatus`: clears the lock once `now >= disabledUntil`. -/
def checkFalseAlarmStatus (now : ℚ) (s : EmergencyDefenseState) :
    EmergencyDefenseState :=
  match s.falseAlarmDisabledUntil with
  | some u =>
    if u ≤ now then
      { s with falseAlarmDisabled := false, falseAlarmDisabledUntil := none }
    else s
  | none => s

/-- Result of `activateEmergencyDefense`: the returned boolean, plus the
remaining lock time in minutes reported to the user when the attempt is
rejected by the false-alarm lock. -/
structure ActivationResult where
  success : Bool
  lockRemainingMinutes : Option ℤ
  deriving DecidableEq

/-- `activateEmergencyDefense()`: rejected while the false-alarm lock is
set (reporting `ceil((disabledUntil - now) / 60000)` minutes); otherwise
attempts the three measures (brightness reduction, battery saving,
emergency location) independently and succeeds when at least one
succeeded. -/
def activateEmergencyDefense (env : DefenseEnv) (now : ℚ)
    (s0 : EmergencyDefenseState) : EmergencyDefenseState × ActivationResult :=
  let s := if s0.isInitialized then s0 else initBrightnessState s0
  if s.falseAlarmDisabled then
    let timeRemaining : ℤ :=
      match s.falseAlarmDisabledUntil with
      | some u => ⌈(u - now) / (1000 * 60)⌉
      | none => 0
    (s, { success := false, lockRemainingMinutes := some timeRemaining })
  else
    let bright : Option ℚ × Bool :=
      if env.platformIsWeb then
        (none, match env.webDim with | .ok _ => true | .error _ => false)
      else
        match env.getBrightness with
        | .error _ => (none, false)
        | .ok currentBrightness =>
          if 0.2 < currentBrightness then
            (some currentBrightness,
              match env.setBrightness 0.1 with | .ok _ => true | .error _ => false)
          else
            (some currentBrightness, true)
    let batterySavingSuccess : Bool :=
      if env.platformIsWeb then
        match env.webBattery with | .ok _ => true | .error _ => false
      else true
    let locationSuccess : Bool :=
      match env.currentLocation with
      | some _ => !env.insertLocationFails
      | none => false
    let successCount : Nat :=
      (if bright.2 then 1 else 0) + (if batterySavingSuccess then 1 else 0) +
        (if locationSuccess then 1 else 0)
    ({ s with isActive := true
              originalBrightness := bright.1
              batterySavingEnabled := batterySavingSuccess
              locationSent := locationSuccess
              brightnessRestored := false },
     { success := decide (0 < successCount), lockRemainingMinutes := none })

/-- `deactivateEmergencyDefense()`: restore brightness (errors caught
and logged), then reset the state and return `true`. -/
def deactivateEmergencyDefense (env : DefenseEnv) (s : EmergencyDefenseState) :
    EmergencyDefenseState × Bool :=
  let resetState : EmergencyDefenseState :=
    { s with isActive := false
             originalBrightness := none
             batterySavingEnabled := false
             locationSent := false
             brightnessRestored := false }
  if env.platformIsWeb then
    match env.webDim with
    | .ok _ => (resetState, true)
    | .error _ => (resetState, true)
  else
    match env.setBrightness (jsOrDefault s.originalBrightness 0.8) with
    | .ok _ => (resetState, true)
    | .error _ => (resetState, true)

/-- `disableForFalseAlarm()`: deactivate first when active, then lock
auto/manual activation until 30 minutes from now. -/
def disableForFalseAlarm (env : DefenseEnv) (now : ℚ)
    (s : EmergencyDefenseState) : EmergencyDefenseState × Bool :=
  let disabledUntil := now + 30 * 60 * 1000
  let s1 := if s.isActive then (deactivateEmergencyDefense env s).1 else s
  ({ s1 with falseAlarmDisabled := true
             falseAlarmDisabledUntil := some disabledUntil }, true)

/-! ### Helper lemmas for the Defense Mode Controller -/

lemma deactivateEmergencyDefense_eval (env : DefenseEnv)
    (s : EmergencyDefenseState) :
    deactivateEmergencyDefense env s =
      ({ s with isActive := false
                originalBrightness := none
                batterySavingEnabled := false
                locationSent := false
                brightnessRestored := false }, true) := by
  unfold deactivateEmergencyDefense
  cases hw : env.platformIsWeb
  · cases hb : env.setBrightness (jsOrDefault s.originalBrightness 0.8) <;>
      simp [hw, hb]
  · cases hd : env.webDim <;> simp [hw, hd]

lemma disableForFalseAlarm_eval (env : DefenseEnv) (now : ℚ)
    (s : EmergencyDefenseState) :
    disableForFalseAlarm env now s =
      (if s.isActive then
        { s with isActive := false
                 originalBrightness := none
                 batterySavingEnabled := false
                 locationSent := false
                 brightnessRestored := false
                 falseAlarmDisabled := true
                 falseAlarmDisabledUntil := some (now + 30 * 60 * 1000) }
      else
        { s with falseAlarmDisabled := true
                 falseAlarmDisabledUntil := some (now + 30 * 60 * 1000) }, true) := by
  unfold disableForFalseAlarm
  cases ha : s.isActive <;> simp [ha, deactivateEmergencyDefense_eval]

lemma activateEmergencyDefense_locked (env : DefenseEnv) (now : ℚ)
    (s : EmergencyDefenseState) (hlock : s.falseAlarmDisabled = true)
    (u : ℚ) (huntil : s.falseAlarmDisabledUntil = some u) :
    activateEmergencyDefense env now s =
      (if s.isInitialized then s else { s with isInitialized := true },
       { success := false,
         lockRemainingMinutes := some ⌈(u - now) / (1000 * 60)⌉ }) := by
  unfold activateEmergencyDefense initBrightnessState
  cases hi : s.isInitialized <;> simp [hi, hlock, huntil]

lemma activateEmergencyDefense_native_success (env : DefenseEnv) (now : ℚ)
    (s : EmergencyDefenseState) (hlock : s.falseAlarmDisabled = false)
    (hw : env.platformIsWeb = false) :
    (activateEmergencyDefense env now s).2.success = true := by
  unfold activateEmergencyDefense initBrightnessState
  cases hi : s.isInitialized <;>
    simp only [hi, if_true, if_false, hlock, hw, Bool.false_eq_true] <;>
    · rw [decide_eq_true_eq]
      omega

/-! ### Claim theorems for the Defense Mode Controller -/

/-- C10: deactivation always resets the defense state (active flags and
stored brightness cleared) and returns `true`, for every collaborator
outcome — in particular when the brightness-restore write fails, since
that error is caught internally. -/
theorem deactivate_resets_and_returns_true :
    ∀ env (s : EmergencyDefenseState),
      deactivateEmergencyDefense env s =
        ({ s with isActive := false
                  originalBrightness := none
                  batterySavingEnabled := false
                  locationSent := false
                  brightnessRestored := false }, true) :=
  deactivateEmergencyDefense_eval

/-- C8: engaging the false-alarm lock deactivates defense mode when
active and sets a lock expiring 30 minutes later; while the lock is set,
every activation attempt fails, reports the remaining lock time in
minutes, and leaves the state inactive; once the periodic check runs at
a time at least 30 minutes after engagement, the lock clears and a
native activation succeeds again. -/
theorem false_alarm_lock_behavior :
    ∀ env (now : ℚ) (s : EmergencyDefenseState),
      (disableForFalseAlarm env now s).2 = true ∧
      (disableForFalseAlarm env now s).1.isActive = false ∧
      (disableForFalseAlarm env now s).1.falseAlarmDisabled = true ∧
      (disableForFalseAlarm env now s).1.falseAlarmDisabledUntil =
        some (now + 30 * 60 * 1000) ∧
      (s.isActive = true →
        (disableForFalseAlarm env now s).1.originalBrightness = none ∧
        (disableForFalseAlarm env now s).1.batterySavingEnabled = false ∧
        (disableForFalseAlarm env now s).1.locationSent = false ∧
        (disableForFalseAlarm env now s).1.brightnessRestored = false) ∧
      (∀ env2 (t2 : ℚ),
        (activateEmergencyDefense env2 t2
          (disableForFalseAlarm env now s).1).2.success = false ∧
        (activateEmergencyDefense env2 t2
          (disableForFalseAlarm env now s).1).2.lockRemainingMinutes =
            some ⌈(now + 30 * 60 * 1000 - t2) / (1000 * 60)⌉ ∧
        (activateEmergencyDefense env2 t2
          (disableForFalseAlarm env now s).1).1.isActive = false) ∧
      (∀ t2 : ℚ, now + 30 * 60 * 1000 ≤ t2 →
        (checkFalseAlarmStatus t2
          (disableForFalseAlarm env now s).1).falseAlarmDisabled = false ∧
        (checkFalseAlarmStatus t2
          (disableForFalseAlarm env now s).1).falseAlarmDisabledUntil = none ∧
        (∀ env3, env3.platformIsWeb = false →
          (activateEmergencyDefense env3 t2
            (checkFalseAlarmStatus t2
              (disableForFalseAlarm env now s).1)).2.success = true)) := by
  intro env now s
  refine ⟨?_, ?_, ?_, ?_, ?_, ?_, ?_⟩
  · rw [disableForFalseAlarm_eval]
  · rw [disableForFalseAlarm_eval]
    cases ha : s.isActive <;> simp [ha]
  · rw [disableForFalseAlarm_eval]
    cases ha : s.isActive <;> rfl
  · rw [disableForFalseAlarm_eval]
    cases ha : s.isActive <;> rfl
  · intro h
    rw [disableForFalseAlarm_eval]
    simp [h]
  · intro env2 t2
    rw [disableForFalseAlarm_eval]
    cases ha : s.isActive <;>
      · rw [activateEmergencyDefense_locked env2 t2 _ rfl _ rfl]
        refine ⟨rfl, rfl, ?_⟩
        cases hi : s.isInitialized <;> simp [hi, ha]
  · intro t2 ht
    refine ⟨?_, ?_, ?_⟩
    · rw [disableForFalseAlarm_eval]
      cases ha : s.isActive <;> simp [checkFalseAlarmStatus, ht]
    · rw [disableForFalseAlarm_eval]
      cases ha : s.isActive <;> simp [checkFalseAlarmStatus, ht]
    · intro env3 hw3
      rw [disableForFalseAlarm_eval]
      apply activateEmergencyDefense_native_success env3 t2 _ _ hw3
      cases ha : s.isActive <;> simp [checkFalseAlarmStatus, ht]

/-- A native-platform environment where every collaborator call
succeeds. -/
def sampleEnv : DefenseEnv :=
  { platformIsWeb := false
    getBrightness := Except.ok 0.9
    setBrightness := fun _ => Except.ok ()
    webDim := Except.ok ()
    webBattery := Except.ok ()
    currentLocation := some (40.0, -74.0)
    insertLocationFails := false }

/-- A defense state in which defense mode is currently active. -/
def sampleActiveDefenseState : EmergencyDefenseState :=
  { isActive := true
    originalBrightness := some 0.9
    batterySavingEnabled := true
    locationSent := true
    falseAlarmDisabled := false
    falseAlarmDisabledUntil := none
    brightnessRestored := false
    isInitialized := true }

/-- Witness for C8: locking at t = 0 from the active state deactivates
and locks; an attempt at t = 600000 ms (10 min) fails reporting 20
minutes remaining; after the check at t = 1800000 ms (30 min) the lock
is clear and activation succeeds. -/
theorem false_alarm_lock_behavior_witness :
    (disableForFalseAlarm sampleEnv 0 sampleActiveDefenseState).2 = true ∧
    (disableForFalseAlarm sampleEnv 0 sampleActiveDefenseState).1.isActive = false ∧
    (activateEmergencyDefense sampleEnv 600000
      (disableForFalseAlarm sampleEnv 0 sampleActiveDefenseState).1).2.success
      = false ∧
    (activateEmergencyDefense sampleEnv 600000
      (disableForFalseAlarm sampleEnv 0 sampleActiveDefenseState).1).2.lockRemainingMinutes
      = some 20 ∧
    (checkFalseAlarmStatus 1800000
      (disableForFalseAlarm sampleEnv 0 sampleActiveDefenseState).1).falseAlarmDisabled
      = false ∧
    (activateEmergencyDefense sampleEnv 1800000
      (checkFalseAlarmStatus 1800000
        (disableForFalseAlarm sampleEnv 0 sampleActiveDefenseState).1)).2.success
      = true := by
  have h := false_alarm_lock_behavior sampleEnv 0 sampleActiveDefenseState
  exact ⟨h.1, h.2.1, (h.2.2.2.2.2.1 sampleEnv 600000).1,
    ((h.2.2.2.2.2.1 sampleEnv 600000).2.1).trans (by decide),
    (h.2.2.2.2.2.2 1800000 (by decide)).1,
    (h.2.2.2.2.2.2 1800000 (by decide)).2.2 sampleEnv rfl⟩

end ShakeGuard
